import Mathlib

/-!
Verification of the AI-gateway request pipeline and format-transcoding engine.

The definitions below are a shallow embedding of the TypeScript sources:
  - `src/config.ts` (provider routing),
  - `src/gateway.ts` / the chat-completions handler (rate limiting, validation,
    error taxonomy, response delivery),
  - `src/providers/anthropic.ts` (request/response/stream transcoding),
  - `src/middleware/cache/index.ts` (TTL response cache),
  - `src/middleware/guardrails/index.ts` (PII guardrails).
Machine integers are modelled as `Nat` (timestamps are `Date.now()` epoch
milliseconds, token counts are small non-negative integers).  JavaScript
string truthiness (`""` and `undefined` are falsy) is modelled explicitly.
-/

namespace Nextway

/-! ## JavaScript object-lookup semantics -/

/-- The property names a bracket lookup on a plain object literal (or a
Zod-parsed record) finds on the `Object.prototype` chain in Node when the own
property is absent.  Every one of them is bound to a truthy value (a function,
or for `__proto__` the prototype object itself), so `obj[key] || fallback`
never falls through to the fallback for these keys. -/
def objectProtoKeys : List String :=
  ["constructor", "hasOwnProperty", "isPrototypeOf", "propertyIsEnumerable",
   "toLocaleString", "toString", "valueOf", "__proto__",
   "__defineGetter__", "__defineSetter__", "__lookupGetter__", "__lookupSetter__"]

/-- What a JavaScript `record[key] || fallback` on a string-valued plain
object evaluates to: a string, or a member inherited from `Object.prototype`
(a truthy non-string value). -/
inductive JsStringOr where
  | str (s : String)
  | protoMember (nm : String)
deriving DecidableEq

/-- `record[key] || fallback` on a string-valued plain object literal: an own
property shadows the prototype (a falsy own value `""` falls through to the
fallback); an absent key naming an `Object.prototype` member yields that
inherited truthy member; otherwise the lookup is `undefined` and the fallback
is taken. -/
def recordLookupOr (own : List (String × String)) (key fallback : String) : JsStringOr :=
  match own.lookup key with
  | some v => if v == "" then JsStringOr.str fallback else JsStringOr.str v
  | none =>
    if objectProtoKeys.contains key then JsStringOr.protoMember key
    else JsStringOr.str fallback

/-! ## Shared wire data model -/

/-- Roles allowed on an inbound message (`OpenAIMessage.role`). -/
inductive Role where
  | system
  | user
  | assistant
deriving DecidableEq

/-- An inbound chat message (`OpenAIMessage`). -/
structure Message where
  role : Role
  content : String
deriving DecidableEq

/-- Roles allowed on an upstream Anthropic message (`AnthropicMessage.role`). -/
inductive ChatRole where
  | user
  | assistant
deriving DecidableEq

/-- An upstream Anthropic message (`AnthropicMessage`). -/
structure AnthropicMessage where
  role : ChatRole
  content : String
deriving DecidableEq

/-- The parsed inbound request body (`OpenAIRequest`).  Fields that the JSON
body may omit are `Option`; `model := some ""` models an empty-string model,
which JavaScript validation (`!request.model`) treats like an absent one.
`messages := none` models an absent or non-array `messages` value.
Numeric sampling parameters are carried opaquely (no claim computes with
them), so `Int` stands in for the JavaScript number. -/
structure OpenAIRequest where
  model : Option String := none
  messages : Option (List Message) := none
  temperature : Option Int := none
  top_p : Option Int := none
  max_tokens : Option Nat := none
  stream : Option Bool := none
deriving DecidableEq

/-- The upstream Anthropic request (`AnthropicRequest`).  The `model` field
carries whatever `mapModel` evaluated to (see `JsStringOr`). -/
structure AnthropicRequest where
  model : JsStringOr
  max_tokens : Nat
  messages : List AnthropicMessage
  system : Option String
  temperature : Option Int
  top_p : Option Int
  stream : Option Bool
deriving DecidableEq

/-- A content block of an Anthropic response (`AnthropicResponse.content[i]`). -/
structure ContentBlock where
  type : String
  text : String
deriving DecidableEq

/-- Anthropic usage counters (`AnthropicResponse.usage`). -/
structure UsageIn where
  input_tokens : Nat
  output_tokens : Nat
deriving DecidableEq

/-- The upstream Anthropic non-streaming response (`AnthropicResponse`). -/
structure AnthropicResponse where
  id : String
  content : List ContentBlock
  model : String
  stop_reason : Option String
  usage : UsageIn
deriving DecidableEq

/-- One choice of the exposed completion object (`choices[0]` built by
`convertResponse`).  The generated `id`/`created` fields are wall-clock
derived and are omitted from the model.  `finish_reason` holds whatever
`mapFinishReason` evaluated to (a `JsStringOr`; a `protoMember` value is not
JSON-serializable and `JSON.stringify` drops the key from the wire object). -/
structure Choice where
  index : Nat
  role : String
  content : String
  finish_reason : JsStringOr
deriving DecidableEq

/-- Exposed usage block (`usage` built by `convertResponse`). -/
structure UsageOut where
  prompt_tokens : Nat
  completion_tokens : Nat
  total_tokens : Nat
deriving DecidableEq

/-- The exposed completion object built by `convertResponse`. -/
structure ChatCompletion where
  model : String
  choices : List Choice
  usage : UsageOut
deriving DecidableEq

/-! ## Routing (`src/config.ts`) -/

/-- The two upstream providers (`ProviderName`). -/
inductive ProviderName where
  | openai
  | anthropic
deriving DecidableEq

/-- The slice of the loaded configuration the router consumes:
`model_mappings` (the record's own properties, whose values are provider
names) and `default_provider`. -/
structure Config where
  default_provider : ProviderName
  model_mappings : List (String × ProviderName)
deriving DecidableEq

/-- What `getProviderForModel` evaluates to: a provider name, or — for an
unmapped model naming an `Object.prototype` member — the inherited truthy
member, which is not a provider name at all. -/
inductive ProviderVal where
  | name (p : ProviderName)
  | protoMember (nm : String)
deriving DecidableEq

/-- `getProviderForModel` (`src/config.ts` lines 68-71):
`config.model_mappings[model] || config.default_provider`.  The mapped own
values are the non-empty strings "openai"/"anthropic", never falsy; but the
Zod-parsed record is a plain object, so an unmapped model that names an
`Object.prototype` member returns the inherited truthy member and the `||`
never reaches the default. -/
def getProviderForModel (cfg : Config) (model : String) : ProviderVal :=
  match cfg.model_mappings.lookup model with
  | some p => ProviderVal.name p
  | none =>
    if objectProtoKeys.contains model then ProviderVal.protoMember model
    else ProviderVal.name cfg.default_provider

/-! ## JavaScript string helpers -/

/-- Matches `needle` against the front of `hay`, character by character. -/
def leadMatch : List Char → List Char → Bool
  | [], _ => true
  | _ :: _, [] => false
  | a :: as, b :: bs => (a == b) && leadMatch as bs

/-- Scans `hay` for an occurrence of `needle`. -/
def substrSearch (needle : List Char) : List Char → Bool
  | [] => needle.isEmpty
  | c :: rest => leadMatch needle (c :: rest) || substrSearch needle rest

/-- JavaScript `s.includes(sub)`: `sub` occurs contiguously in `s`
(the empty needle always matches). -/
def containsSubstr (s sub : String) : Bool := substrSearch sub.toList s.toList

/-- JavaScript truthiness of a `string | undefined` value: `undefined` and
`""` are falsy. -/
def jsFalsy : Option String → Bool
  | none => true
  | some s => s == ""

/-! ## Transcoding outbound (`src/providers/anthropic.ts`, `convertRequest`) -/

/-- The static alias table of `mapModel` (`anthropic.ts` lines 169-174). -/
def modelAliasMap : List (String × String) :=
  [("claude-3-sonnet", "claude-3-sonnet-20240229"),
   ("claude-3-opus", "claude-3-opus-20240229"),
   ("claude-3-haiku", "claude-3-haiku-20240307"),
   ("claude-3-5-sonnet", "claude-3-5-sonnet-20241022")]

/-- `mapModel` (`anthropic.ts` lines 168-176): `modelMap[openaiModel] ||
openaiModel`.  Unknown names pass through unchanged, except that a name
which is an `Object.prototype` member ("toString", ...) returns the
inherited truthy member rather than the input string. -/
def mapModel (m : String) : JsStringOr := recordLookupOr modelAliasMap m m

/-- The message loop of `convertRequest` (`anthropic.ts` lines 63-72): each
`system` message overwrites the local `system` variable; `user`/`assistant`
messages are appended to the accumulator in order. -/
def convertMessages : List Message → Option String → List AnthropicMessage →
    Option String × List AnthropicMessage
  | [], sys, acc => (sys, acc)
  | m :: rest, sys, acc =>
    match m.role with
    | Role.system => convertMessages rest (some m.content) acc
    | Role.user => convertMessages rest sys (acc ++ [⟨ChatRole.user, m.content⟩])
    | Role.assistant => convertMessages rest sys (acc ++ [⟨ChatRole.assistant, m.content⟩])

/-- The `if (system)` guard of `convertRequest` (`anthropic.ts` line 80):
the `system` field is attached only when the captured value is truthy,
i.e. present and non-empty. -/
def truthyOpt : Option String → Option String
  | some s => if s == "" then none else some s
  | none => none

/-- `convertRequest` (`anthropic.ts` lines 56-94).  `max_tokens` defaults to
1024; `temperature`, `top_p` and `stream` are forwarded only when present.
It runs after validation, so `model`/`messages` are present (`getD` supplies
an unreachable default). -/
def convertRequest (r : OpenAIRequest) : AnthropicRequest :=
  let sm := convertMessages (r.messages.getD []) none []
  { model := mapModel (r.model.getD "")
    max_tokens := r.max_tokens.getD 1024
    messages := sm.2
    system := truthyOpt sm.1
    temperature := r.temperature
    top_p := r.top_p
    stream := r.stream }

/-- Specification-side description of what `convertRequest` extracts: the
content of the last `system`-role message, if any. -/
def lastSystem : List Message → Option String
  | [] => none
  | m :: rest =>
    match lastSystem rest with
    | some s => some s
    | none => if m.role = Role.system then some m.content else none

/-- Specification-side description of the carried-over messages: every
non-`system` message, 1:1, order preserved. -/
def keptMessages : List Message → List AnthropicMessage
  | [] => []
  | m :: rest =>
    match m.role with
    | Role.system => keptMessages rest
    | Role.user => ⟨ChatRole.user, m.content⟩ :: keptMessages rest
    | Role.assistant => ⟨ChatRole.assistant, m.content⟩ :: keptMessages rest

/-- Resolution of the loop's running `system` variable: a captured system
content overrides the initial value. -/
def sysOverride : Option String → Option String → Option String
  | some s, _ => some s
  | none, sys => sys

/-! ## Transcoding inbound, non-streaming (`convertResponse`) -/

/-- JavaScript `Array.prototype.join('')` on a list of strings. -/
def joinAll : List String → String
  | [] => ""
  | s :: rest => s ++ joinAll rest

/-- The stop-reason table of `mapFinishReason` (`anthropic.ts` lines 179-183). -/
def reasonMap : List (String × String) :=
  [("end_turn", "stop"), ("max_tokens", "length"), ("stop_sequence", "stop")]

/-- `mapFinishReason` (`anthropic.ts` lines 178-185):
`reasonMap[anthropicReason || ''] || 'stop'`.  A stop_reason naming an
`Object.prototype` member returns the inherited truthy member, so the
`|| 'stop'` fallback never fires for it. -/
def mapFinishReason (anthropicReason : Option String) : JsStringOr :=
  recordLookupOr reasonMap (anthropicReason.getD "") "stop"

/-- `convertResponse` (`anthropic.ts` lines 99-126): filter the text-typed
blocks, join their texts, map the stop reason, rename the usage counters. -/
def convertResponse (r : AnthropicResponse) : ChatCompletion :=
  let content := joinAll ((r.content.filter (fun b => b.type == "text")).map (fun b => b.text))
  { model := r.model
    choices := [⟨0, "assistant", content, mapFinishReason r.stop_reason⟩]
    usage := ⟨r.usage.input_tokens, r.usage.output_tokens,
              r.usage.input_tokens + r.usage.output_tokens⟩ }

/-- Specification-side description of the concatenated content: the in-order
concatenation of the text of every text-typed block. -/
def textConcat : List ContentBlock → String
  | [] => ""
  | b :: rest => if b.type == "text" then b.text ++ textConcat rest else textConcat rest

/-! ## Transcoding inbound, streaming (`convertStreamChunk` and the reader
loop of `chatCompletions`, `anthropic.ts` lines 131-166 and 216-241) -/

/-- A decoded upstream stream event: its `type` tag and the `delta.text`
payload when one is present. -/
structure UpstreamEvent where
  type : String
  deltaText : Option String
deriving DecidableEq

/-- JavaScript truthiness of `chunk.delta?.text`. -/
def jsTruthyOpt : Option String → Bool
  | none => false
  | some s => !(s == "")

/-- An outbound streaming frame, structurally: a `data: <json>\n\n` chunk
carrying an optional content delta and an optional finish reason, or the
terminal `data: [DONE]\n\n` sentinel.  Generated ids/timestamps are
wall-clock derived and omitted. -/
inductive Frame where
  | chunk (content : Option String) (finish : Option String)
  | done
deriving DecidableEq

/-- `convertStreamChunk` (`anthropic.ts` lines 131-166): a content-block
delta with truthy text yields one content frame with `finish_reason: null`;
`message_stop` yields one empty-delta frame with `finish_reason: "stop"`
immediately followed by the `[DONE]` sentinel; anything else yields nothing. -/
def convertStreamChunk (e : UpstreamEvent) : List Frame :=
  if e.type == "content_block_delta" && jsTruthyOpt e.deltaText then
    [Frame.chunk e.deltaText none]
  else if e.type == "message_stop" then
    [Frame.chunk none (some "stop"), Frame.done]
  else []

/-- One line of the upstream SSE stream as the reader loop sees it: a
`data: ` line whose JSON payload parses to an event, a `data: ` line whose
payload fails `JSON.parse`, or a line not starting with `data: `. -/
inductive Line where
  | dataLine (e : UpstreamEvent)
  | badData
  | otherLine (s : String)
deriving DecidableEq

/-- The value of `this.convertStreamChunk` inside the underlying source's
`start` method (`anthropic.ts` line 228): `start` is a shorthand method of
the underlying-source object literal, and the Streams machinery invokes it
with `this` bound to that object — which has no `convertStreamChunk`
property — so the lookup yields `undefined`, not the provider's method. -/
def startThisConvertStreamChunk : Option (UpstreamEvent → List Frame) := none

/-- Per-line behaviour of the reader loop (`anthropic.ts` lines 224-236):
non-`data:` lines and parse failures are skipped; on a parsed event the loop
calls `this.convertStreamChunk(data)`, but `this.convertStreamChunk` is
`undefined` (see `startThisConvertStreamChunk`), so the call throws a
`TypeError` inside the same `try` block and the catch meant for invalid JSON
swallows it — the line yields no frame either. -/
def processLine : Line → List Frame
  | Line.dataLine e =>
    match startThisConvertStreamChunk with
    | some f => f e
    | none => []
  | Line.badData => []
  | Line.otherLine _ => []

/-- The whole reader loop, frame emission in input order.  Because every
data line's conversion call throws, this is the empty frame list for every
input. -/
def transcodeLines : List Line → List Frame
  | [] => []
  | l :: rest => processLine l ++ transcodeLines rest

/-! ## HTTP responses and the error taxonomy -/

/-- A response body, structurally: the uniform error envelope
`{error: {message, type, code}}`, an opaque JSON document, or an SSE frame
sequence. -/
inductive ResBody where
  | errorEnv (message ty code : String)
  | jsonRaw (s : String)
  | sse (frames : List Frame)
deriving DecidableEq

/-- A response as delivered by a handler or middleware: status, headers
(lower-cased names; header lookup is case-insensitive) and body. -/
structure GwResponse where
  status : Nat
  headers : List (String × String)
  body : ResBody
deriving DecidableEq

/-- Headers set by Hono's `c.json`. -/
def jsonHeaders : List (String × String) := [("content-type", "application/json")]

/-- Headers of the provider's streaming `Response`
(`anthropic.ts` lines 244-250). -/
def sseHeaders : List (String × String) :=
  [("content-type", "text/event-stream"), ("cache-control", "no-cache"),
   ("connection", "keep-alive")]

/-- `createErrorResponse` (handler lines 56-73): `c.json` of the error
envelope with the given status. -/
def errResp (status : Nat) (message ty code : String) : GwResponse :=
  ⟨status, jsonHeaders, ResBody.errorEnv message ty code⟩

/-- `c.res.headers.get('content-type') || ''`. -/
def contentTypeOf (r : GwResponse) : String := (r.headers.lookup "content-type").getD ""

/-- `Response.ok`: status in the 2xx range. -/
def respOk (r : GwResponse) : Bool := decide (200 ≤ r.status ∧ r.status < 300)

/-- The handler's catch block (handler lines 163-193): a thrown `Error` whose
message contains the substring `"timeout"` becomes 504/TIMEOUT, any other
becomes 500/INTERNAL_ERROR carrying the message. -/
def handlerCatch (msg : String) : GwResponse :=
  if containsSubstr msg "timeout" then
    errResp 504 "Request timeout" "gateway_error" "TIMEOUT"
  else
    errResp 500 msg "gateway_error" "INTERNAL_ERROR"

/-! ## The chat-completions handler (`src/unnamed/part_002`) -/

/-- Whether `await response.json()` succeeds on a body.  An SSE body is never
valid JSON (its text is empty or begins with `data: `), so parsing it always
throws; for other bodies the outcome is supplied by the caller. -/
def respBodyParses : ResBody → Bool → Bool
  | ResBody.sse _, _ => false
  | ResBody.jsonRaw _, p => p
  | ResBody.errorEnv _ _ _, p => p

/-- What the provider call did: resolved with a `Response`, or threw. -/
inductive ProviderOutcome where
  | respond (resp : GwResponse)
  | throwErr (msg : String)
deriving DecidableEq

/-- Result of one pipeline stage: the response it settled on and whether the
provider adapter was invoked underneath it. -/
structure StageResult where
  resp : GwResponse
  providerInvoked : Bool
deriving DecidableEq

/-- The route handler (`part_002` lines 108-194): body-parse failure is
caught like any other error; missing/empty `model` is 400/MISSING_MODEL;
missing/non-array `messages` is 400/MISSING_MESSAGES; then the provider is
invoked: a throw goes to the catch block, a non-2xx response becomes
PROVIDER_ERROR with the mirrored status, and an ok response is re-read with
`await response.json()` and re-emitted via `c.json` (a parse failure again
goes to the catch block). -/
def handlerRun (req : Option OpenAIRequest) (outcome : ProviderOutcome)
    (respParseOk : Bool) (respParseErrMsg reqParseErrMsg : String) : StageResult :=
  match req with
  | none => ⟨handlerCatch reqParseErrMsg, false⟩
  | some r =>
    if jsFalsy r.model then
      ⟨errResp 400 "Model is required" "invalid_request_error" "MISSING_MODEL", false⟩
    else if r.messages = none then
      ⟨errResp 400 "Messages array is required" "invalid_request_error" "MISSING_MESSAGES", false⟩
    else
      match outcome with
      | ProviderOutcome.throwErr msg => ⟨handlerCatch msg, true⟩
      | ProviderOutcome.respond resp =>
        if respOk resp then
          if respBodyParses resp.body respParseOk then
            ⟨⟨resp.status, jsonHeaders, resp.body⟩, true⟩
          else
            ⟨handlerCatch respParseErrMsg, true⟩
        else
          ⟨errResp resp.status ("Provider returned error: " ++ toString resp.status)
            "provider_error" "PROVIDER_ERROR", true⟩

/-- The streaming branch of `AnthropicProvider.chatCompletions`
(`anthropic.ts` lines 206-250): the upstream SSE lines pass through the
incremental transcoder and the result is a 200 `text/event-stream`
response wrapping the emitted frames. -/
def anthropicStreamResult (lines : List Line) : GwResponse :=
  ⟨200, sseHeaders, ResBody.sse (transcodeLines lines)⟩

/-! ## Guardrails middleware (`src/middleware/guardrails/index.ts`) -/

/-- Operating mode of the guardrails stage. -/
inductive GuardMode where
  | log
  | block
deriving DecidableEq

/-- JavaScript `!text.trim()`: the text is empty or all-whitespace. -/
def isBlank (text : String) : Bool := text.toList.all Char.isWhitespace

/-- `detectPii` (guardrails lines 18-35): blank text short-circuits to no
entities; otherwise the abstract detector capability runs (`detect` already
accounts for the fail-open catch: a detector error is an empty result). -/
def detectPii (detect : String → List String) (text : String) : List String :=
  if isBlank text then [] else detect text

/-- 400-class request-stage guardrail rejection (guardrails lines 74-85). -/
def pii400 : GwResponse :=
  errResp 400 "PII detected in request" "guardrails_violation" "PII_DETECTED"

/-- 502-class response-stage guardrail rejection (guardrails lines 104-116). -/
def pii502 : GwResponse :=
  errResp 502 "PII detected in response" "guardrails_violation" "PII_DETECTED"

/-- The guardrails middleware (guardrails lines 37-120).  Disabled: no-op.
Enabled: a non-empty request-body detection in block mode rejects with 400
before `next` runs; otherwise `next` runs, and a non-streaming response with
a non-empty body detection in block mode is replaced by the 502 rejection.
`detectRes` is the same detector capability applied to the response text. -/
def guardrailsStep (enabled : Bool) (mode : GuardMode) (detect : String → List String)
    (detectRes : ResBody → List String) (reqText : String) (inner : StageResult) : StageResult :=
  if enabled then
    if detectPii detect reqText ≠ [] ∧ mode = GuardMode.block then
      ⟨pii400, false⟩
    else
      if containsSubstr (contentTypeOf inner.resp) "text/event-stream" then inner
      else if detectRes inner.resp.body ≠ [] ∧ mode = GuardMode.block then
        ⟨pii502, inner.providerInvoked⟩
      else inner
  else inner

/-! ## Cache middleware (`src/middleware/cache/index.ts`) -/

/-- A stored cache entry (`CacheEntry`). -/
structure CacheEntry where
  expires : Nat
  body : ResBody
  status : Nat
  headers : List (String × String)
  latencyMs : Nat
  model : Option String
  provider : Option ProviderVal
deriving DecidableEq

/-- `Map.set`: (re)bind a key in a string-keyed store. -/
def storeSet {β : Type} (store : List (String × β)) (key : String) (v : β) :
    List (String × β) :=
  (key, v) :: store.filter (fun p => p.1 != key)

/-- The hit test `cached && cached.expires > Date.now()` (cache line 45). -/
def cacheHit (store : List (String × CacheEntry)) (key : String) (now : Nat) :
    Option CacheEntry :=
  match store.lookup key with
  | some e => if e.expires > now then some e else none
  | none => none

/-- Result of the cache middleware: the response, whether `next` (and hence
everything downstream, including the provider adapter) ran, and the store. -/
structure CacheStepResult where
  resp : GwResponse
  nextRan : Bool
  store : List (String × CacheEntry)
deriving DecidableEq

/-- The cache middleware (cache lines 34-78).  Key is
`path ++ ":" ++ bodyText`.  A fresh hit replays the stored
status/headers/body without running `next`.  On a miss `next` runs (its
settled result is `inner`, taking `dur` milliseconds); a 2xx, non-SSE
response is stored with `expires = Date.now() + ttl` measured after `next`
(`now + dur + ttl`), together with the measured latency and the telemetry
model/provider. -/
def cacheStep (ttl : Nat) (store : List (String × CacheEntry)) (path bodyText : String)
    (now dur : Nat) (inner : StageResult) (model : Option String)
    (provider : Option ProviderVal) : CacheStepResult :=
  let key := path ++ ":" ++ bodyText
  match cacheHit store key now with
  | some e => ⟨⟨e.status, e.headers, e.body⟩, false, store⟩
  | none =>
    if respOk inner.resp && !containsSubstr (contentTypeOf inner.resp) "text/event-stream" then
      ⟨inner.resp, true,
        storeSet store key
          ⟨now + dur + ttl, inner.resp.body, inner.resp.status, inner.resp.headers,
           dur, model, provider⟩⟩
    else
      ⟨inner.resp, true, store⟩

/-! ## Rate limiter (`part_002` lines 14-54 / `gateway.ts` lines 16-58) -/

/-- A token bucket (`RateLimitEntry`). -/
structure RateLimitEntry where
  tokens : Nat
  lastRefill : Nat
deriving DecidableEq

/-- `Math.floor((timePassed / 60000) * refillRate)` with
`refillRate = maxTokens`.  The source computes this in floating point; on
every input exercised in this development the double-precision result and
this exact rational floor coincide. -/
def refillTokens (maxTokens timePassed : Nat) : Nat :=
  timePassed * maxTokens / (60 * 1000)

/-- `isAllowed` on the bucket of one key.  Unknown key: a bucket with
`capacity - 1` tokens is created and the call is admitted.  Known key:
refill (capped at capacity, advancing `lastRefill` only when the refill is
positive), then consume a token if one is available. -/
def isAllowedE (maxTokens : Nat) (entry : Option RateLimitEntry) (now : Nat) :
    Bool × RateLimitEntry :=
  match entry with
  | none => (true, ⟨maxTokens - 1, now⟩)
  | some e =>
    let tokensToAdd := refillTokens maxTokens (now - e.lastRefill)
    let e2 : RateLimitEntry :=
      if 0 < tokensToAdd then ⟨min maxTokens (e.tokens + tokensToAdd), now⟩ else e
    if 0 < e2.tokens then (true, ⟨e2.tokens - 1, e2.lastRefill⟩) else (false, e2)

/-- `isAllowed` acting on the shared `rateLimitStore` map. -/
def isAllowedStore (maxTokens : Nat) (store : List (String × RateLimitEntry))
    (key : String) (now : Nat) : Bool × List (String × RateLimitEntry) :=
  let r := isAllowedE maxTokens (store.lookup key) now
  (r.1, storeSet store key r.2)

/-- A sequence of `isAllowed` calls on one key at the given times, returning
the admission outcomes and the final bucket. -/
def runCalls (maxTokens : Nat) : Option RateLimitEntry → List Nat →
    List Bool × Option RateLimitEntry
  | e, [] => ([], e)
  | e, now :: rest =>
    let step := isAllowedE maxTokens e now
    let tail := runCalls maxTokens (some step.2) rest
    (step.1 :: tail.1, tail.2)

/-! ## The assembled pipeline (`part_002`, `chatCompletionsHandler`) -/

/-- The telemetry value `c.set("request_model", ...)` would hold after the
handler: the request's model, when validation passed. -/
def routedModel (req : Option OpenAIRequest) : Option String :=
  match req with
  | some r => if jsFalsy r.model = false ∧ r.messages ≠ none then r.model else none
  | none => none

/-- The telemetry value `c.set("target_provider", ...)` would hold. -/
def routedProvider (cfg : Config) (req : Option OpenAIRequest) : Option ProviderVal :=
  (routedModel req).map (getProviderForModel cfg)

/-- Result of one request through the mounted middleware chain. -/
structure PipeResult where
  resp : GwResponse
  providerInvoked : Bool
  rlStore : List (String × RateLimitEntry)
  cacheStore : List (String × CacheEntry)
deriving DecidableEq

/-- One request through the chain mounted in `chatCompletionsHandler`
(`part_002` lines 84-107): rate limiting, then the cache middleware, then
guardrails, then the route handler.  A rate-limit rejection settles at 429
with the bucket already updated; otherwise the cache middleware wraps the
guardrails-wrapped handler. -/
def pipelineRun (cfg : Config) (perMinute ttl : Nat) (enabled : Bool) (mode : GuardMode)
    (detect : String → List String) (detectRes : ResBody → List String)
    (rlStore : List (String × RateLimitEntry)) (cacheStore : List (String × CacheEntry))
    (rlKey path bodyText : String) (req : Option OpenAIRequest) (now dur : Nat)
    (outcome : ProviderOutcome) (respParseOk : Bool)
    (respParseErrMsg reqParseErrMsg : String) : PipeResult :=
  let rl := isAllowedStore perMinute rlStore rlKey now
  if rl.1 then
    let hres := handlerRun req outcome respParseOk respParseErrMsg reqParseErrMsg
    let inner := guardrailsStep enabled mode detect detectRes bodyText hres
    let cres := cacheStep ttl cacheStore path bodyText now dur inner
      (routedModel req) (routedProvider cfg req)
    ⟨cres.resp, cres.nextRan && inner.providerInvoked, rl.2, cres.store⟩
  else
    ⟨errResp 429 "Rate limit exceeded" "rate_limit_error" "RATE_LIMIT_EXCEEDED",
      false, rl.2, cacheStore⟩

/-! ## Concrete scenario inputs used by witnesses and counterexamples -/

/-- The mapping table of the example `config.yaml` and the unit test. -/
def demoConfig : Config :=
  ⟨ProviderName.openai,
   [("gpt-4o-mini", ProviderName.openai), ("claude-3-sonnet", ProviderName.anthropic)]⟩

/-- Upstream SSE lines for a short streamed Anthropic reply. -/
def demoLines : List Line :=
  [Line.dataLine ⟨"content_block_delta", some "Hi"⟩, Line.dataLine ⟨"message_stop", none⟩]

/-- A valid streaming request routed to the Anthropic provider. -/
def demoStreamReq : OpenAIRequest :=
  { model := some "claude-3-sonnet"
    messages := some [⟨Role.user, "Hi"⟩]
    stream := some true }

/-- The message `JSON.parse` raises on the buffered stream text (in reality
empty, since the broken reader loop enqueues nothing). -/
def jsonParseFailMsg : String := "Unexpected end of JSON input"

/-- The streaming scenario of claim C1 driven through the whole pipeline:
guardrails disabled, empty stores, the provider resolving with its (correct)
`text/event-stream` response. -/
def demoStreamRun : PipeResult :=
  pipelineRun demoConfig 60 60000 false GuardMode.log (fun _ => []) (fun _ => [])
    [] [] "key" "/v1/chat/completions" "body" (some demoStreamReq) 0 5
    (ProviderOutcome.respond (anthropicStreamResult demoLines)) true jsonParseFailMsg ""

/-- A request whose body fails validation (no `model` field), driven through
the pipeline from empty stores. -/
def demoInvalidRun : PipeResult :=
  pipelineRun demoConfig 5 60000 false GuardMode.log (fun _ => []) (fun _ => [])
    [] [] "key" "/v1/chat/completions" "nobody"
    (some { messages := some [⟨Role.user, "Hi"⟩] })
    0 0 (ProviderOutcome.throwErr "unreachable") true "" ""

/-! ## Shared helper lemmas -/

/-- The `convertRequest` loop, fully characterised: the running `system`
variable ends as the last system content (else its initial value), and the
accumulator gains every non-system message, in order. -/
theorem convertMessages_spec (ms : List Message) :
    ∀ (sys : Option String) (acc : List AnthropicMessage),
      convertMessages ms sys acc = (sysOverride (lastSystem ms) sys, acc ++ keptMessages ms) := by
  induction ms with
  | nil => intro sys acc; simp [convertMessages, lastSystem, keptMessages, sysOverride]
  | cons m rest ih =>
    intro sys acc
    cases hrole : m.role with
    | system =>
      cases hl : lastSystem rest with
      | none =>
        simp [convertMessages, hrole, ih, lastSystem, keptMessages, hl, sysOverride]
      | some s =>
        simp [convertMessages, hrole, ih, lastSystem, keptMessages, hl, sysOverride]
    | user =>
      cases hl : lastSystem rest with
      | none =>
        simp [convertMessages, hrole, ih, lastSystem, keptMessages, hl, sysOverride]
      | some s =>
        simp [convertMessages, hrole, ih, lastSystem, keptMessages, hl, sysOverride]
    | assistant =>
      cases hl : lastSystem rest with
      | none =>
        simp [convertMessages, hrole, ih, lastSystem, keptMessages, hl, sysOverride]
      | some s =>
        simp [convertMessages, hrole, ih, lastSystem, keptMessages, hl, sysOverride]

/-- Overriding an absent initial value is the identity. -/
theorem sysOverride_none (o : Option String) : sysOverride o none = o := by
  cases o <;> rfl

/-- The filter/map/join pipeline of `convertResponse` computes the in-order
concatenation of the text of the text-typed blocks. -/
theorem textConcat_eq (bs : List ContentBlock) :
    joinAll ((bs.filter (fun b => b.type == "text")).map (fun b => b.text)) = textConcat bs := by
  induction bs with
  | nil => rfl
  | cons b rest ih =>
    cases hb : (b.type == "text") with
    | false => simp [List.filter_cons, hb, textConcat, ih]
    | true => simp [List.filter_cons, hb, textConcat, joinAll, ih]

/-- `mapFinishReason`, as a single case split: `max_tokens` maps to
`"length"`; a key naming an `Object.prototype` member maps to the inherited
member; every other value, absent included, maps to `"stop"`. -/
theorem mapFinishReason_eq (o : Option String) :
    mapFinishReason o =
      if o.getD "" = "max_tokens" then JsStringOr.str "length"
      else if objectProtoKeys.contains (o.getD "") then JsStringOr.protoMember (o.getD "")
      else JsStringOr.str "stop" := by
  have hform : ∀ s : String,
      recordLookupOr reasonMap s "stop" =
        if s = "max_tokens" then JsStringOr.str "length"
        else if objectProtoKeys.contains s then JsStringOr.protoMember s
        else JsStringOr.str "stop" := by
    intro s
    by_cases h1 : s = "end_turn"
    · subst h1; decide
    · by_cases h2 : s = "max_tokens"
      · subst h2; decide
      · by_cases h3 : s = "stop_sequence"
        · subst h3; decide
        · have hb1 : (s == "end_turn") = false := beq_eq_false_iff_ne.mpr h1
          have hb2 : (s == "max_tokens") = false := beq_eq_false_iff_ne.mpr h2
          have hb3 : (s == "stop_sequence") = false := beq_eq_false_iff_ne.mpr h3
          simp [recordLookupOr, reasonMap, List.lookup, hb1, hb2, hb3, h2]
  exact hform (o.getD "")

/-! ## Claim theorems -/

/-- C8 (counterexample): "toString" is absent from the demo mapping table,
yet `getProviderForModel` returns the inherited `Object.prototype.toString`
member (truthy), not the configured default provider and not a
`ProviderName` at all; the dispatch `provider === 'openai'` then routes such
a request to the Anthropic branch regardless of the default. -/
theorem c8_model_routing_counterexample :
    getProviderForModel demoConfig "toString" = ProviderVal.protoMember "toString" ∧
    demoConfig.model_mappings.lookup "toString" = none ∧
    ProviderVal.protoMember "toString" ≠ ProviderVal.name demoConfig.default_provider ∧
    ProviderVal.protoMember "toString" ≠ ProviderVal.name ProviderName.openai ∧
    ProviderVal.protoMember "toString" ≠ ProviderVal.name ProviderName.anthropic := by
  refine ⟨by decide, by decide, by decide, by decide, by decide⟩

/-- C8 (amended): a model present in the mapping table resolves to its
mapped provider; a model absent from the table that does not name an
`Object.prototype` member resolves to the configured default provider; and
an absent model naming such a member ("toString", "constructor",
"valueOf", ...) resolves to the inherited truthy member instead of the
default — not a `ProviderName`. -/
theorem c8_model_routing_amended (cfg : Config) (m : String) :
    (∀ p, cfg.model_mappings.lookup m = some p →
      getProviderForModel cfg m = ProviderVal.name p) ∧
    (cfg.model_mappings.lookup m = none → objectProtoKeys.contains m = false →
      getProviderForModel cfg m = ProviderVal.name cfg.default_provider) ∧
    (cfg.model_mappings.lookup m = none → objectProtoKeys.contains m = true →
      getProviderForModel cfg m = ProviderVal.protoMember m) := by
  refine ⟨?_, ?_, ?_⟩
  · intro p hp; simp [getProviderForModel, hp]
  · intro hp hc
    simp at hc
    simp [getProviderForModel, hp, hc]
  · intro hp hc
    simp at hc
    simp [getProviderForModel, hp, hc]

theorem c8_model_routing_amended_witness :
    getProviderForModel demoConfig "claude-3-sonnet" = ProviderVal.name ProviderName.anthropic ∧
    getProviderForModel demoConfig "unknown-model" = ProviderVal.name ProviderName.openai ∧
    getProviderForModel demoConfig "valueOf" = ProviderVal.protoMember "valueOf" :=
  ⟨(c8_model_routing_amended demoConfig "claude-3-sonnet").1 ProviderName.anthropic (by decide),
   (c8_model_routing_amended demoConfig "unknown-model").2.1 (by decide) (by decide),
   (c8_model_routing_amended demoConfig "valueOf").2.2 (by decide) (by decide)⟩

/-- C10: the handler's catch block classifies a thrown error as a timeout
solely by whether its message contains the substring `"timeout"`: every such
message is surfaced as 504/TIMEOUT, and any message lacking the substring —
an actual timeout included — is surfaced as 500/INTERNAL_ERROR; moreover a
provider throw reaches that catch block verbatim. -/
theorem c10_timeout_by_substring (msg : String) :
    (containsSubstr msg "timeout" = true →
      handlerCatch msg = errResp 504 "Request timeout" "gateway_error" "TIMEOUT") ∧
    (containsSubstr msg "timeout" = false →
      handlerCatch msg = errResp 500 msg "gateway_error" "INTERNAL_ERROR") ∧
    (∀ (r : OpenAIRequest) (b : Bool) (s1 s2 : String),
      jsFalsy r.model = false → r.messages ≠ none →
      handlerRun (some r) (ProviderOutcome.throwErr msg) b s1 s2 = ⟨handlerCatch msg, true⟩) := by
  refine ⟨?_, ?_, ?_⟩
  · intro h; simp [handlerCatch, h]
  · intro h; simp [handlerCatch, h]
  · intro r b s1 s2 hm hmsg
    simp [handlerRun, hm, hmsg]

theorem c10_timeout_by_substring_witness :
    handlerCatch "Request timeout" = errResp 504 "Request timeout" "gateway_error" "TIMEOUT" ∧
    handlerCatch "socket hang up" = errResp 500 "socket hang up" "gateway_error" "INTERNAL_ERROR" ∧
    handlerRun (some demoStreamReq) (ProviderOutcome.throwErr "Request timeout") true "" "" =
      ⟨handlerCatch "Request timeout", true⟩ :=
  ⟨(c10_timeout_by_substring "Request timeout").1 (by decide),
   (c10_timeout_by_substring "socket hang up").2.1 (by decide),
   (c10_timeout_by_substring "Request timeout").2.2 demoStreamReq true "" ""
     (by decide) (by decide)⟩

/-- C2 (code bug): fed the upstream sequence delta("Hi"), delta(" there"),
message_stop, the reader loop emits no frames at all — inside the
`ReadableStream` `start` shorthand method `this.convertStreamChunk` is
`undefined`, so every data line throws a `TypeError` that the catch intended
for invalid JSON swallows — whereas `convertStreamChunk` itself, invoked on
those events as intended, yields exactly the claimed per-event frames.  The
claimed frame sequence is never produced. -/
theorem c2_stream_transcoding_code_bug :
    transcodeLines
        [Line.dataLine ⟨"content_block_delta", some "Hi"⟩,
         Line.dataLine ⟨"content_block_delta", some " there"⟩,
         Line.dataLine ⟨"message_stop", none⟩] = [] ∧
    ([] : List Frame) ≠
      [Frame.chunk (some "Hi") none, Frame.chunk (some " there") none,
       Frame.chunk none (some "stop"), Frame.done] ∧
    convertStreamChunk ⟨"content_block_delta", some "Hi"⟩ =
      [Frame.chunk (some "Hi") none] ∧
    convertStreamChunk ⟨"content_block_delta", some " there"⟩ =
      [Frame.chunk (some " there") none] ∧
    convertStreamChunk ⟨"message_stop", none⟩ =
      [Frame.chunk none (some "stop"), Frame.done] := by
  refine ⟨by decide, by decide, by decide, by decide, by decide⟩

/-- C3 (counterexample): with two leading system messages "A" and "B" the
upstream `system` field is the last content `"B"`, not the concatenation
`"AB"` the claim requires; and a single system message with empty content
yields no `system` field at all rather than `system == ""`. -/
theorem c3_system_extraction_counterexample :
    (convertRequest
        { model := some "claude-3-sonnet",
          messages := some [⟨Role.system, "A"⟩, ⟨Role.system, "B"⟩, ⟨Role.user, "Hi"⟩] }).system
      = some "B" ∧
    (some "B" : Option String) ≠ some ("A" ++ "B") ∧
    (convertRequest
        { model := some "claude-3-sonnet",
          messages := some [⟨Role.system, ""⟩, ⟨Role.user, "Hi"⟩] }).system = none := by
  refine ⟨by decide, by decide, by decide⟩

/-- C3 (amended): the upstream `system` field is the content of the *last*
system message when that content is non-empty (omitted otherwise); all
system messages, wherever they occur, are removed; the remaining
user/assistant messages are carried over 1:1 with order preserved; in
particular the single-system example of the spec holds. -/
theorem c3_system_extraction_amended :
    (∀ r : OpenAIRequest,
      (convertRequest r).system = truthyOpt (lastSystem (r.messages.getD [])) ∧
      (convertRequest r).messages = keptMessages (r.messages.getD [])) ∧
    (convertRequest
        { model := some "claude-3-sonnet",
          messages := some [⟨Role.system, "Be terse"⟩, ⟨Role.user, "Hi"⟩] }).system
      = some "Be terse" ∧
    (convertRequest
        { model := some "claude-3-sonnet",
          messages := some [⟨Role.system, "Be terse"⟩, ⟨Role.user, "Hi"⟩] }).messages
      = [⟨ChatRole.user, "Hi"⟩] := by
  refine ⟨?_, by decide, by decide⟩
  intro r
  constructor
  · simp [convertRequest, convertMessages_spec, sysOverride_none]
  · simp [convertRequest, convertMessages_spec]

/-- C4 (counterexample): for stop_reason `"toString"` the lookup
`reasonMap[key] || 'stop'` finds the inherited `Object.prototype.toString`
member (truthy), so the finish reason is that function rather than the
`"stop"` the claim's "anything else" case requires (`JSON.stringify` then
drops the non-serializable value from the wire object). -/
theorem c4_response_transcoding_counterexample :
    mapFinishReason (some "toString") = JsStringOr.protoMember "toString" ∧
    JsStringOr.protoMember "toString" ≠ JsStringOr.str "stop" ∧
    (convertResponse ⟨"id0", [⟨"text", "Hello"⟩], "m", some "toString", ⟨1, 2⟩⟩).choices =
      [⟨0, "assistant", "Hello", JsStringOr.protoMember "toString"⟩] := by
  refine ⟨by decide, by decide, by decide⟩

/-- C4 (amended): the exposed message content is the in-order concatenation
of the text of every text-typed content block and the usage block renames
input/output token counts to prompt/completion with total their sum, as
claimed; the finish reason is `"length"` exactly for stop_reason
`max_tokens`, `"stop"` for `end_turn`, `stop_sequence`, null and any other
value that does not name an `Object.prototype` member — but for a
stop_reason naming such a member the lookup returns the inherited truthy
member itself, not `"stop"`. -/
theorem c4_response_transcoding_amended (r : AnthropicResponse) :
    (convertResponse r).choices =
      [⟨0, "assistant", textConcat r.content, mapFinishReason r.stop_reason⟩] ∧
    (mapFinishReason r.stop_reason = JsStringOr.str "length" ↔
      r.stop_reason = some "max_tokens") ∧
    (mapFinishReason r.stop_reason = JsStringOr.str "stop" ↔
      (r.stop_reason ≠ some "max_tokens" ∧
        objectProtoKeys.contains (r.stop_reason.getD "") = false)) ∧
    (objectProtoKeys.contains (r.stop_reason.getD "") = true →
      mapFinishReason r.stop_reason = JsStringOr.protoMember (r.stop_reason.getD "")) ∧
    (convertResponse r).usage =
      ⟨r.usage.input_tokens, r.usage.output_tokens,
       r.usage.input_tokens + r.usage.output_tokens⟩ := by
  have hmax : r.stop_reason = some "max_tokens" ↔ r.stop_reason.getD "" = "max_tokens" := by
    cases r.stop_reason with
    | none => simp
    | some s => simp
  refine ⟨?_, ?_, ?_, ?_, rfl⟩
  · simp [convertResponse, textConcat_eq]
  · rw [mapFinishReason_eq, hmax]
    by_cases h2 : r.stop_reason.getD "" = "max_tokens"
    · simp [h2]
    · cases h4 : objectProtoKeys.contains (r.stop_reason.getD "") <;> simp [h2, h4]
  · simp only [ne_eq]
    rw [mapFinishReason_eq, hmax]
    by_cases h2 : r.stop_reason.getD "" = "max_tokens"
    · simp [h2]
    · cases h4 : objectProtoKeys.contains (r.stop_reason.getD "") <;> simp [h2, h4]
  · intro h4
    rw [mapFinishReason_eq]
    have h2 : ¬ r.stop_reason.getD "" = "max_tokens" := by
      intro he
      rw [he] at h4
      exact absurd h4 (by decide)
    have h4m : r.stop_reason.getD "" ∈ objectProtoKeys := by simpa using h4
    simp [h2, h4m]

theorem c4_response_transcoding_amended_witness :
    mapFinishReason (some "toString") = JsStringOr.protoMember "toString" :=
  (c4_response_transcoding_amended ⟨"id0", [], "m", some "toString", ⟨1, 2⟩⟩).2.2.2.1
    (by decide)

/-- A run of same-timestamp `isAllowed` calls on a known bucket: no refill
accrues, so the first `tokens` calls are admitted and the rest rejected. -/
theorem runCalls_same_time (maxTokens : Nat) :
    ∀ (k c t : Nat),
      runCalls maxTokens (some ⟨c, t⟩) (List.replicate k t) =
        (List.replicate (min c k) true ++ List.replicate (k - c) false, some ⟨c - k, t⟩) := by
  intro k
  induction k with
  | zero => intro c t; simp [runCalls]
  | succ n ih =>
    intro c t
    cases c with
    | zero =>
      simp [List.replicate_succ, runCalls, isAllowedE, refillTokens, ih]
    | succ c0 =>
      have hstep : isAllowedE maxTokens (some ⟨c0 + 1, t⟩) t = (true, ⟨c0, t⟩) := by
        simp [isAllowedE, refillTokens]
      simp [List.replicate_succ, runCalls, hstep, ih, Nat.succ_min_succ,
        Nat.succ_sub_succ]

/-- C5 (counterexample): with capacity N = 2, three `isAllowed` calls on a
fresh key at 0 ms, 30000 ms and 59000 ms — all within the same minute — are
*all* admitted, because the second call accrues a fractional-minute refill;
the claim requires the third call to be rejected. -/
theorem c5_rate_limit_counterexample :
    (runCalls 2 none [0, 30000, 59000]).1 = [true, true, true] := by decide

/-- C5 (amended): for capacity N ≥ 1 and a fresh key, N+1 `isAllowed` calls
in immediate succession (same timestamp, so that no refill accrues between
them) are admitted N times and then rejected, and one full minute later the
next call is admitted again. -/
theorem c5_rate_limit_amended (n t : Nat) (h : 1 ≤ n) :
    (runCalls n none (List.replicate (n + 1) t)).1 = List.replicate n true ++ [false] ∧
    (isAllowedE n (runCalls n none (List.replicate (n + 1) t)).2 (t + 60000)).1 = true := by
  have hfst : isAllowedE n none t = (true, ⟨n - 1, t⟩) := by simp [isAllowedE]
  have hrun :
      runCalls n none (List.replicate (n + 1) t) =
        (true :: (List.replicate (min (n - 1) n) true ++ List.replicate (n - (n - 1)) false),
         some ⟨n - 1 - n, t⟩) := by
    simp [List.replicate_succ, runCalls, hfst, runCalls_same_time]
  have hmin : min (n - 1) n = n - 1 := Nat.min_eq_left (Nat.sub_le n 1)
  have hsub1 : n - (n - 1) = 1 := by omega
  have hsub0 : n - 1 - n = 0 := by omega
  constructor
  · rw [hrun]
    simp only [hmin, hsub1, hsub0]
    have hrep : List.replicate n true = true :: List.replicate (n - 1) true := by
      have hn1 : n = (n - 1) + 1 := by omega
      rw [hn1, List.replicate_succ]
      simp
    rw [hrep]
    simp [List.replicate]
  · rw [hrun]
    simp only [hsub0]
    have hn : 0 < n := h
    have haddc : (t + 60000) - t = 60000 := by omega
    have hadd : refillTokens n 60000 = n := by
      simp only [refillTokens]
      omega
    simp [isAllowedE, haddc, hadd, hn]

theorem c5_rate_limit_amended_witness :
    (runCalls 3 none (List.replicate 4 7)).1 = List.replicate 3 true ++ [false] ∧
    (isAllowedE 3 (runCalls 3 none (List.replicate 4 7)).2 (7 + 60000)).1 = true :=
  c5_rate_limit_amended 3 7 (by decide)

/-- C6: after a first call at time `t0` (taking `dur` ms) misses the cache
and stores a 2xx non-streaming response, a second call with the same path
and byte-identical body, made while the stored entry is fresh, replays the
stored status/headers/body and does not run anything downstream of the cache
(so the provider adapter is not invoked again); and a call made at or after
the entry's expiry runs the downstream stage again. -/
theorem c6_cache_ttl (ttl : Nat) (store0 : List (String × CacheEntry))
    (path bodyText : String) (t0 dur t1 t2 : Nat)
    (inner1 inner2 inner3 : StageResult)
    (m1 m2 m3 : Option String) (p1 p2 p3 : Option ProviderVal)
    (hmiss : cacheHit store0 (path ++ ":" ++ bodyText) t0 = none)
    (hok : respOk inner1.resp = true)
    (hns : containsSubstr (contentTypeOf inner1.resp) "text/event-stream" = false)
    (hfresh : t1 < t0 + dur + ttl)
    (hstale : t0 + dur + ttl ≤ t2) :
    (cacheStep ttl (cacheStep ttl store0 path bodyText t0 dur inner1 m1 p1).store
        path bodyText t1 0 inner2 m2 p2).resp = inner1.resp ∧
    (cacheStep ttl (cacheStep ttl store0 path bodyText t0 dur inner1 m1 p1).store
        path bodyText t1 0 inner2 m2 p2).nextRan = false ∧
    (cacheStep ttl (cacheStep ttl store0 path bodyText t0 dur inner1 m1 p1).store
        path bodyText t2 0 inner3 m3 p3).nextRan = true := by
  have hstore :
      (cacheStep ttl store0 path bodyText t0 dur inner1 m1 p1).store =
        storeSet store0 (path ++ ":" ++ bodyText)
          ⟨t0 + dur + ttl, inner1.resp.body, inner1.resp.status, inner1.resp.headers,
           dur, m1, p1⟩ := by
    simp [cacheStep, hmiss, hok, hns]
  have hlook :
      (storeSet store0 (path ++ ":" ++ bodyText)
          ⟨t0 + dur + ttl, inner1.resp.body, inner1.resp.status, inner1.resp.headers,
           dur, m1, p1⟩).lookup (path ++ ":" ++ bodyText) =
        some ⟨t0 + dur + ttl, inner1.resp.body, inner1.resp.status, inner1.resp.headers,
           dur, m1, p1⟩ := by
    simp [storeSet, List.lookup]
  refine ⟨?_, ?_, ?_⟩
  · rw [hstore]
    simp [cacheStep, cacheHit, hlook, hfresh]
  · rw [hstore]
    simp [cacheStep, cacheHit, hlook, hfresh]
  · rw [hstore]
    have hnotfresh : ¬ t0 + dur + ttl > t2 := by omega
    simp [cacheStep, cacheHit, hlook, hnotfresh]
    split <;> rfl

theorem c6_cache_ttl_witness :
    (cacheStep 60000
        (cacheStep 60000 [] "/v1/chat/completions" "b" 0 10
          ⟨⟨200, jsonHeaders, ResBody.jsonRaw "r"⟩, true⟩ none none).store
        "/v1/chat/completions" "b" 30 0 ⟨⟨200, jsonHeaders, ResBody.jsonRaw "s"⟩, true⟩
        none none).resp = ⟨200, jsonHeaders, ResBody.jsonRaw "r"⟩ ∧
    (cacheStep 60000
        (cacheStep 60000 [] "/v1/chat/completions" "b" 0 10
          ⟨⟨200, jsonHeaders, ResBody.jsonRaw "r"⟩, true⟩ none none).store
        "/v1/chat/completions" "b" 30 0 ⟨⟨200, jsonHeaders, ResBody.jsonRaw "s"⟩, true⟩
        none none).nextRan = false ∧
    (cacheStep 60000
        (cacheStep 60000 [] "/v1/chat/completions" "b" 0 10
          ⟨⟨200, jsonHeaders, ResBody.jsonRaw "r"⟩, true⟩ none none).store
        "/v1/chat/completions" "b" 70010 0 ⟨⟨200, jsonHeaders, ResBody.jsonRaw "s"⟩, true⟩
        none none).nextRan = true :=
  c6_cache_ttl 60000 [] "/v1/chat/completions" "b" 0 10 30 70010
    ⟨⟨200, jsonHeaders, ResBody.jsonRaw "r"⟩, true⟩
    ⟨⟨200, jsonHeaders, ResBody.jsonRaw "s"⟩, true⟩
    ⟨⟨200, jsonHeaders, ResBody.jsonRaw "s"⟩, true⟩
    none none none none none none
    (by decide) (by decide) (by decide) (by decide) (by decide)

/-- C7: with guardrails enabled in block mode, a request admitted by the
rate limiter and not served from cache whose body yields a non-empty PII
detection is rejected with status 400 and code PII_DETECTED, and the
provider adapter is never invoked. -/
theorem c7_guardrails_block (cfg : Config) (perMinute ttl : Nat)
    (detect : String → List String) (detectRes : ResBody → List String)
    (rlStore : List (String × RateLimitEntry)) (cacheStore : List (String × CacheEntry))
    (rlKey path bodyText : String) (req : Option OpenAIRequest) (now dur : Nat)
    (outcome : ProviderOutcome) (rp : Bool) (m1 m2 : String)
    (hdet : detectPii detect bodyText ≠ [])
    (hrl : (isAllowedStore perMinute rlStore rlKey now).1 = true)
    (hmiss : cacheHit cacheStore (path ++ ":" ++ bodyText) now = none) :
    (pipelineRun cfg perMinute ttl true GuardMode.block detect detectRes
        rlStore cacheStore rlKey path bodyText req now dur outcome rp m1 m2).resp =
      errResp 400 "PII detected in request" "guardrails_violation" "PII_DETECTED" ∧
    (pipelineRun cfg perMinute ttl true GuardMode.block detect detectRes
        rlStore cacheStore rlKey path bodyText req now dur outcome rp m1 m2).providerInvoked =
      false := by
  have hguard :
      guardrailsStep true GuardMode.block detect detectRes bodyText
        (handlerRun req outcome rp m1 m2) = ⟨pii400, false⟩ := by
    simp [guardrailsStep, hdet]
  have hcache :
      cacheStep ttl cacheStore path bodyText now dur ⟨pii400, false⟩
        (routedModel req) (routedProvider cfg req) = ⟨pii400, true, cacheStore⟩ := by
    simp [cacheStep, hmiss, pii400, errResp, respOk]
  have hpii : pii400 =
      errResp 400 "PII detected in request" "guardrails_violation" "PII_DETECTED" := rfl
  constructor
  · rw [← hpii]
    simp [pipelineRun, hrl, hguard, hcache]
  · simp [pipelineRun, hrl, hguard, hcache]

theorem c7_guardrails_block_witness :
    (pipelineRun demoConfig 60 60000 true GuardMode.block (fun _ => ["EMAIL"]) (fun _ => [])
        [] [] "k" "/v1/chat/completions" "mail me at a@b.c" none 0 0
        (ProviderOutcome.throwErr "x") true "" "").resp =
      errResp 400 "PII detected in request" "guardrails_violation" "PII_DETECTED" ∧
    (pipelineRun demoConfig 60 60000 true GuardMode.block (fun _ => ["EMAIL"]) (fun _ => [])
        [] [] "k" "/v1/chat/completions" "mail me at a@b.c" none 0 0
        (ProviderOutcome.throwErr "x") true "" "").providerInvoked = false :=
  c7_guardrails_block demoConfig 60 60000 (fun _ => ["EMAIL"]) (fun _ => [])
    [] [] "k" "/v1/chat/completions" "mail me at a@b.c" none 0 0
    (ProviderOutcome.throwErr "x") true "" ""
    (by decide) (by decide) (by decide)

/-- C9 (counterexample): a request whose body lacks `model` is rejected with
400, yet processing it mutates the rate-limit store — the rate-limiting
middleware runs before validation and consumes a token (here creating the
bucket for key "key" with 4 of 5 tokens); the claim requires the rate-limit
store to be unmodified. -/
theorem c9_validation_counterexample :
    demoInvalidRun.resp.status = 400 ∧
    demoInvalidRun.rlStore = [("key", ⟨4, 0⟩)] ∧
    ([("key", (⟨4, 0⟩ : RateLimitEntry))] : List (String × RateLimitEntry)) ≠ [] := by
  refine ⟨by decide, by decide, by decide⟩

/-- C9 (amended): with guardrails disabled, a request failing validation
(missing/empty `model`, or missing/non-array `messages`) that is admitted by
the rate limiter and not served from cache is answered 400 with the matching
error code before any upstream dispatch, and the cache store is not
modified — but the rate-limit store *is* modified, exactly as by the
admission check that ran before validation. -/
theorem c9_validation_amended (cfg : Config) (perMinute ttl : Nat)
    (detect : String → List String) (detectRes : ResBody → List String)
    (rlStore : List (String × RateLimitEntry)) (cacheStore : List (String × CacheEntry))
    (rlKey path bodyText : String) (r : OpenAIRequest) (now dur : Nat)
    (outcome : ProviderOutcome) (rp : Bool) (m1 m2 : String)
    (hval : jsFalsy r.model = true ∨ (jsFalsy r.model = false ∧ r.messages = none))
    (hrl : (isAllowedStore perMinute rlStore rlKey now).1 = true)
    (hmiss : cacheHit cacheStore (path ++ ":" ++ bodyText) now = none) :
    (pipelineRun cfg perMinute ttl false GuardMode.log detect detectRes
        rlStore cacheStore rlKey path bodyText (some r) now dur outcome rp m1 m2).resp =
      (if jsFalsy r.model then
        errResp 400 "Model is required" "invalid_request_error" "MISSING_MODEL"
      else
        errResp 400 "Messages array is required" "invalid_request_error" "MISSING_MESSAGES") ∧
    (pipelineRun cfg perMinute ttl false GuardMode.log detect detectRes
        rlStore cacheStore rlKey path bodyText (some r) now dur outcome rp m1 m2).providerInvoked
      = false ∧
    (pipelineRun cfg perMinute ttl false GuardMode.log detect detectRes
        rlStore cacheStore rlKey path bodyText (some r) now dur outcome rp m1 m2).cacheStore
      = cacheStore ∧
    (pipelineRun cfg perMinute ttl false GuardMode.log detect detectRes
        rlStore cacheStore rlKey path bodyText (some r) now dur outcome rp m1 m2).rlStore
      = (isAllowedStore perMinute rlStore rlKey now).2 := by
  have hh :
      handlerRun (some r) outcome rp m1 m2 =
        ⟨if jsFalsy r.model then
            errResp 400 "Model is required" "invalid_request_error" "MISSING_MODEL"
          else
            errResp 400 "Messages array is required" "invalid_request_error" "MISSING_MESSAGES",
          false⟩ := by
    rcases hval with hm | ⟨hm, hmsg⟩
    · simp [handlerRun, hm]
    · simp [handlerRun, hm, hmsg]
  have hok400 : ∀ msg typ code, respOk (errResp 400 msg typ code) = false := by
    intro msg typ code; simp [respOk, errResp]
  have hres :
      pipelineRun cfg perMinute ttl false GuardMode.log detect detectRes
          rlStore cacheStore rlKey path bodyText (some r) now dur outcome rp m1 m2 =
        ⟨(if jsFalsy r.model then
            errResp 400 "Model is required" "invalid_request_error" "MISSING_MODEL"
          else
            errResp 400 "Messages array is required" "invalid_request_error" "MISSING_MESSAGES"),
          false, (isAllowedStore perMinute rlStore rlKey now).2, cacheStore⟩ := by
    cases hm : jsFalsy r.model with
    | true => simp [pipelineRun, hrl, hh, hm, guardrailsStep, cacheStep, hmiss, hok400]
    | false => simp [pipelineRun, hrl, hh, hm, guardrailsStep, cacheStep, hmiss, hok400]
  exact ⟨by rw [hres], by rw [hres], by rw [hres], by rw [hres]⟩

theorem c9_validation_amended_witness :
    (pipelineRun demoConfig 5 60000 false GuardMode.log (fun _ => []) (fun _ => [])
        [] [] "key" "/v1/chat/completions" "nobody"
        (some { messages := some [⟨Role.user, "Hi"⟩] })
        0 0 (ProviderOutcome.throwErr "unreachable") true "" "").resp =
      (if jsFalsy ({ messages := some [⟨Role.user, "Hi"⟩] } : OpenAIRequest).model then
        errResp 400 "Model is required" "invalid_request_error" "MISSING_MODEL"
      else
        errResp 400 "Messages array is required" "invalid_request_error" "MISSING_MESSAGES") ∧
    (pipelineRun demoConfig 5 60000 false GuardMode.log (fun _ => []) (fun _ => [])
        [] [] "key" "/v1/chat/completions" "nobody"
        (some { messages := some [⟨Role.user, "Hi"⟩] })
        0 0 (ProviderOutcome.throwErr "unreachable") true "" "").providerInvoked = false ∧
    (pipelineRun demoConfig 5 60000 false GuardMode.log (fun _ => []) (fun _ => [])
        [] [] "key" "/v1/chat/completions" "nobody"
        (some { messages := some [⟨Role.user, "Hi"⟩] })
        0 0 (ProviderOutcome.throwErr "unreachable") true "" "").cacheStore = [] ∧
    (pipelineRun demoConfig 5 60000 false GuardMode.log (fun _ => []) (fun _ => [])
        [] [] "key" "/v1/chat/completions" "nobody"
        (some { messages := some [⟨Role.user, "Hi"⟩] })
        0 0 (ProviderOutcome.throwErr "unreachable") true "" "").rlStore =
      (isAllowedStore 5 [] "key" 0).2 :=
  c9_validation_amended demoConfig 5 60000 (fun _ => []) (fun _ => [])
    [] [] "key" "/v1/chat/completions" "nobody"
    { messages := some [⟨Role.user, "Hi"⟩] }
    0 0 (ProviderOutcome.throwErr "unreachable") true "" ""
    (Or.inl (by decide)) (by decide) (by decide)

/-- C1 (code bug): for the concrete streaming request the provider's
streaming `Response` does carry `Content-Type: text/event-stream`, but its
body is the empty frame sequence (the broken reader loop of C2 enqueues
nothing), and the handler then buffers even that with
`await response.json()` and re-emits via `c.json`: the client receives a
500 INTERNAL_ERROR JSON envelope with `Content-Type: application/json` — at
no point an event stream of `data:` frames terminated by `[DONE]`, and
nothing is re-emitted incrementally. -/
theorem c1_streaming_never_delivered :
    contentTypeOf (anthropicStreamResult demoLines) = "text/event-stream" ∧
    (anthropicStreamResult demoLines).body = ResBody.sse [] ∧
    demoStreamRun.resp =
      errResp 500 jsonParseFailMsg "gateway_error" "INTERNAL_ERROR" ∧
    contentTypeOf demoStreamRun.resp = "application/json" ∧
    ("application/json" : String) ≠ "text/event-stream" := by
  refine ⟨by decide, by decide, by decide, by decide, by decide⟩

end Nextway
